import Mathlib

/-!
Verification of the frame-resource pipelining and CPU/GPU synchronization
subsystem of `src/Castle/Castle/Project2/Castle.cpp` (TreeBillboardsApp).

The embedding below translates the source into Lean:
* 32-bit floats are idealized as exact rationals (`ℚ`); the claims under
  study never depend on rounding, only on which values are copied where.
* `UINT64` fence values and `UINT` indices become `Nat`; the `int`
  dirty counter `NumFramesDirty` becomes `Int` (it is compared with `> 0`
  and decremented, so signedness matters).
* GPU-side upload buffers (`UploadBuffer<T>` of `Common/UploadBuffer.h`,
  which is not part of the sources available here) are modelled from the
  spec as a sized region with a fallible `CopyData`; see the doc comment
  on `UploadBuffer.CopyData`.
* The blocking OS fence wait (`SetEventOnCompletion` + `WaitForSingleObject`)
  is modelled by its contract: it returns only once the fence's completed
  value has reached the requested target (device loss is fatal and out of
  scope, spec section 7(a)).
-/

namespace Castle

/-- `const int gNumFrameResources = 3;` (Castle.cpp line 19). -/
def gNumFrameResources : Int := 3

/-- The number of ring slots as a natural number (`gNumFrameResources`). -/
abbrev numSlots : Nat := 3

/-- 2-component float vector (`XMFLOAT2`), entries idealized as rationals. -/
structure Vec2 where
  x : ℚ
  y : ℚ
deriving DecidableEq

/-- 3-component float vector (`XMFLOAT3`). -/
structure Vec3 where
  x : ℚ
  y : ℚ
  z : ℚ
deriving DecidableEq

/-- 4-component float vector (`XMFLOAT4`). -/
structure Vec4 where
  x : ℚ
  y : ℚ
  z : ℚ
  w : ℚ
deriving DecidableEq

/-- 4x4 float matrix (`XMFLOAT4X4`), entries idealized as rationals. -/
abbrev Mat4 : Type := Fin 4 → Fin 4 → ℚ

/-- `MathHelper::Identity4x4()`. -/
def Identity4x4 : Mat4 := fun i j => if i = j then 1 else 0

/-- `XMMatrixTranspose`. -/
def XMMatrixTranspose (m : Mat4) : Mat4 := fun i j => m j i

/-- `XMMatrixMultiply` (row-vector convention as in DirectXMath). -/
def XMMatrixMultiply (a b : Mat4) : Mat4 := fun i j =>
  a i 0 * b 0 j + a i 1 * b 1 j + a i 2 * b 2 j + a i 3 * b 3 j

/-- Write a single entry of a matrix (`m(r, c) = v`). -/
def matSetEntry (m : Mat4) (r c : Fin 4) (v : ℚ) : Mat4 := fun i j =>
  if i = r ∧ j = c then v else m i j

/-- 2x2 determinant helper for the cofactor expansion. -/
def det2 (a b c d : ℚ) : ℚ := a * d - b * c

/-- 3x3 determinant by cofactor expansion along the first row. -/
def det3 (a b c d e f g h i : ℚ) : ℚ :=
  a * det2 e f h i - b * det2 d f g i + c * det2 d e g h

/-- The three indices of `Fin 4` other than `k`, in increasing order. -/
def exclIdx (k : Fin 4) : Fin 3 → Fin 4 := fun i =>
  if h : i.val < k.val then ⟨i.val, by omega⟩ else ⟨i.val + 1, by omega⟩

/-- The 3x3 minor of `m` obtained by deleting row `r` and column `c`. -/
def minor3 (m : Mat4) (r c : Fin 4) : ℚ :=
  det3 (m (exclIdx r 0) (exclIdx c 0)) (m (exclIdx r 0) (exclIdx c 1)) (m (exclIdx r 0) (exclIdx c 2))
       (m (exclIdx r 1) (exclIdx c 0)) (m (exclIdx r 1) (exclIdx c 1)) (m (exclIdx r 1) (exclIdx c 2))
       (m (exclIdx r 2) (exclIdx c 0)) (m (exclIdx r 2) (exclIdx c 1)) (m (exclIdx r 2) (exclIdx c 2))

/-- 4x4 determinant by cofactor expansion along the first row. -/
def det4 (m : Mat4) : ℚ :=
  m 0 0 * minor3 m 0 0 - m 0 1 * minor3 m 0 1 + m 0 2 * minor3 m 0 2 - m 0 3 * minor3 m 0 3

/-- `XMMatrixInverse`, idealized as the exact rational cofactor inverse
(on a singular input the rational inverse of `0` is `0` and the result is
junk, matching the "unspecified on singular input" of the float original;
no claim inspects these entries). -/
def XMMatrixInverse (m : Mat4) : Mat4 := fun i j =>
  (det4 m)⁻¹ * ((-1 : ℚ) ^ (i.val + j.val) * minor3 m j i)

/-- One entry of the `Lights` array of `PassConstants` (the `Light` struct of
the common library headers, which are not among the sources here; the fields
are those referenced by `Castle.cpp`: `Position`, `Strength`, `Direction`). -/
structure Light where
  Strength : Vec3
  Direction : Vec3
  Position : Vec3
deriving DecidableEq

/-- Per-object constant block (`ObjectConstants` of FrameResource.h, whose
fields are fixed by the stores in `UpdateObjectCBs`, Castle.cpp lines
433-435: the transposed world and texture transforms). -/
structure ObjectConstants where
  World : Mat4
  TexTransform : Mat4
deriving DecidableEq

/-- Per-material constant block (`MaterialConstants`; fields fixed by the
stores in `UpdateMaterialCBs`, Castle.cpp lines 457-461). -/
structure MaterialConstants where
  DiffuseAlbedo : Vec4
  FresnelR0 : Vec3
  Roughness : ℚ
  MatTransform : Mat4
deriving DecidableEq

/-- Pass-global constant block (`PassConstants`; fields fixed by the stores
in `UpdateMainPassCB`, Castle.cpp lines 481-506, plus `FogColor`, which is
read by `Draw` at line 283 and never written by `UpdateMainPassCB`). -/
structure PassConstants where
  View : Mat4
  InvView : Mat4
  Proj : Mat4
  InvProj : Mat4
  ViewProj : Mat4
  InvViewProj : Mat4
  EyePosW : Vec3
  RenderTargetSize : Vec2
  InvRenderTargetSize : Vec2
  NearZ : ℚ
  FarZ : ℚ
  TotalTime : ℚ
  DeltaTime : ℚ
  AmbientLight : Vec4
  FogColor : Vec4
  Lights : Fin 16 → Light
deriving DecidableEq

/-- Record of a capacity violation: a constant-buffer write at `index` into
a region provisioned for `capacity` elements. -/
structure CapacityError where
  index : Nat
  capacity : Nat
deriving DecidableEq

/-- A per-slot writable constant region: `elementCount` elements were
provisioned at construction; `data` is the region's current contents. -/
structure UploadBuffer (α : Type) where
  elementCount : Nat
  data : Nat → α

/-- Modelled from the spec: `UploadBuffer<T>::CopyData(elementIndex, data)`
lives in `Common/UploadBuffer.h`, which is not among the sources here.
Per spec section 7(b) a write whose element index exceeds the provisioned
region size "must be caught at the Dirty Propagation Tracker boundary and
surfaced as a fatal configuration error, never silently truncated": an
in-range write updates the region, an out-of-range write is a fatal
`CapacityError` (the `Except.error` branch; there is no recovery). -/
def UploadBuffer.CopyData {α : Type} (buf : UploadBuffer α) (elementIndex : Nat) (x : α) :
    Except CapacityError (UploadBuffer α) :=
  if elementIndex < buf.elementCount then
    .ok { buf with data := Function.update buf.data elementIndex x }
  else
    .error { index := elementIndex, capacity := buf.elementCount }

/-- `D3D12_PRIMITIVE_TOPOLOGY` values used by the app. -/
inductive PrimitiveTopology
  | TriangleList
  | PointList
deriving DecidableEq

/-- Shared shading parameters (the `Material` struct of the common library
headers, not among the sources here; fields are those referenced by
`Castle.cpp`, and spec section 3 fixes the data model: albedo, reflectance,
roughness, texture transform, texture slot index, the per-frame constant
index `MatCBIndex`, and the dirty counter). Like `RenderItem`, a freshly
built material starts with `NumFramesDirty = gNumFrameResources`. -/
structure Material where
  Name : String := ""
  MatCBIndex : Nat := 0
  DiffuseSrvHeapIndex : Nat := 0
  DiffuseAlbedo : Vec4 := ⟨1, 1, 1, 1⟩
  FresnelR0 : Vec3 := ⟨1/100, 1/100, 1/100⟩
  Roughness : ℚ := 1/4
  MatTransform : Mat4 := Identity4x4
  NumFramesDirty : Int := gNumFrameResources
deriving DecidableEq

/-- A drawable instance (Castle.cpp lines 23-53). The default field values
are the member initializers of the C++ struct; in particular a freshly
constructed `RenderItem` has `NumFramesDirty = gNumFrameResources` (line 38)
and `ObjCBIndex = (UINT)(-1) = 4294967295` (line 41). The non-owning
`Material*` pointer becomes an `Option Material` (`nullptr` = `none`); the
geometry reference is kept as an opaque name. -/
structure RenderItem where
  World : Mat4 := Identity4x4
  TexTransform : Mat4 := Identity4x4
  NumFramesDirty : Int := gNumFrameResources
  ObjCBIndex : Nat := 4294967295
  Mat : Option Material := none
  Geo : String := ""
  PrimitiveType : PrimitiveTopology := .TriangleList
  IndexCount : Nat := 0
  StartIndexLocation : Nat := 0
  BaseVertexLocation : Int := 0
deriving DecidableEq

/-- `enum class RenderLayer` (Castle.cpp lines 55-62). -/
inductive RenderLayer
  | Opaque
  | Transparent
  | AlphaTested
  | AlphaTestedTreeSprites
deriving DecidableEq

/-- One ring slot (the `FrameResource` of FrameResource.h, not among the
sources here; modelled from the spec, section 3 "FrameResourceSlot", and the
member accesses in Castle.cpp). `Fence = 0` means "never submitted". The
command allocator and the waves dynamic vertex buffer are opaque to every
claim and are omitted. -/
structure FrameResource where
  Fence : Nat := 0
  ObjectCB : UploadBuffer ObjectConstants
  MaterialCB : UploadBuffer MaterialConstants
  PassCB : UploadBuffer PassConstants

/-- `TreeBillboardsApp::BuildFrameResources` (Castle.cpp lines 1462-1469):
each of the `gNumFrameResources` slots is provisioned once, at build time,
with one pass block, one object entry per render item then existing and one
material entry per material then existing. `initObj`/`initMat`/`initPass`
stand for the unspecified fresh-memory contents. -/
def BuildFrameResources (objectCount materialCount : Nat)
    (initObj : ObjectConstants) (initMat : MaterialConstants) (initPass : PassConstants) :
    Fin numSlots → FrameResource := fun _ =>
  { Fence := 0
    ObjectCB := { elementCount := objectCount, data := fun _ => initObj }
    MaterialCB := { elementCount := materialCount, data := fun _ => initMat }
    PassCB := { elementCount := 1, data := fun _ => initPass } }

/-- The packed constant representation of a render item, as built inside
`UpdateObjectCBs` (Castle.cpp lines 430-435). -/
def objectConstantsOf (e : RenderItem) : ObjectConstants :=
  { World := XMMatrixTranspose e.World
    TexTransform := XMMatrixTranspose e.TexTransform }

/-- The packed constant representation of a material, as built inside
`UpdateMaterialCBs` (Castle.cpp lines 455-461). -/
def materialConstantsOf (m : Material) : MaterialConstants :=
  { DiffuseAlbedo := m.DiffuseAlbedo
    FresnelR0 := m.FresnelR0
    Roughness := m.Roughness
    MatTransform := XMMatrixTranspose m.MatTransform }

/-- `TreeBillboardsApp::UpdateObjectCBs` (Castle.cpp lines 421-443): for each
render item, if `NumFramesDirty > 0`, recompute the packed constants, write
them at `ObjCBIndex` into the current slot's object region and decrement the
dirty counter; otherwise leave item and region untouched. -/
def UpdateObjectCBs : List RenderItem → UploadBuffer ObjectConstants →
    Except CapacityError (List RenderItem × UploadBuffer ObjectConstants)
  | [], currObjectCB => .ok ([], currObjectCB)
  | e :: rest, currObjectCB =>
    if e.NumFramesDirty > 0 then
      match currObjectCB.CopyData e.ObjCBIndex (objectConstantsOf e) with
      | .error err => .error err
      | .ok cb1 =>
        match UpdateObjectCBs rest cb1 with
        | .error err => .error err
        | .ok (rest1, cb2) =>
          .ok ({ e with NumFramesDirty := e.NumFramesDirty - 1 } :: rest1, cb2)
    else
      match UpdateObjectCBs rest currObjectCB with
      | .error err => .error err
      | .ok (rest1, cb1) => .ok (e :: rest1, cb1)

/-- `TreeBillboardsApp::UpdateMaterialCBs` (Castle.cpp lines 445-469); the
`unordered_map<string, Material>` becomes an association list. -/
def UpdateMaterialCBs : List (String × Material) → UploadBuffer MaterialConstants →
    Except CapacityError (List (String × Material) × UploadBuffer MaterialConstants)
  | [], currMaterialCB => .ok ([], currMaterialCB)
  | (nm, mat) :: rest, currMaterialCB =>
    if mat.NumFramesDirty > 0 then
      match currMaterialCB.CopyData mat.MatCBIndex (materialConstantsOf mat) with
      | .error err => .error err
      | .ok cb1 =>
        match UpdateMaterialCBs rest cb1 with
        | .error err => .error err
        | .ok (rest1, cb2) =>
          .ok ((nm, { mat with NumFramesDirty := mat.NumFramesDirty - 1 }) :: rest1, cb2)
    else
      match UpdateMaterialCBs rest currMaterialCB with
      | .error err => .error err
      | .ok (rest1, cb1) => .ok ((nm, mat) :: rest1, cb1)

/-- The scripted scroll of the water material (`AnimateMaterials`,
Castle.cpp lines 397-419) applied to the `"water"` material itself: advance
the texture-transform translation by `0.1*dt` and `0.02*dt` (float literals
idealized as `1/10` and `1/50`), wrap each coordinate back below `1`, and
re-mark the material fully dirty (`NumFramesDirty = gNumFrameResources`,
line 418). -/
def animateWaterMaterial (dt : ℚ) (mat : Material) : Material :=
  let tu := mat.MatTransform 3 0 + (1/10) * dt
  let tv := mat.MatTransform 3 1 + (1/50) * dt
  let tu2 := if tu ≥ 1 then tu - 1 else tu
  let tv2 := if tv ≥ 1 then tv - 1 else tv
  { mat with
    MatTransform := matSetEntry (matSetEntry mat.MatTransform 3 0 tu2) 3 1 tv2
    NumFramesDirty := gNumFrameResources }

/-- `TreeBillboardsApp::AnimateMaterials` over the material table: only the
entry named `"water"` is touched (`mMaterials["water"]`, line 400; the app
always holds a `"water"` material, so `operator[]`'s insert-on-missing
behavior never fires and is not modelled). -/
def AnimateMaterials (dt : ℚ) (mats : List (String × Material)) :
    List (String × Material) :=
  mats.map fun p => if p.1 = "water" then (p.1, animateWaterMaterial dt p.2) else p

/-- The Dirty Propagation Tracker's `markDirty` for a material: the mutation
sites set `NumFramesDirty = gNumFrameResources` (Castle.cpp line 418 for the
animated material; spec section 4.3). -/
def markDirtyMaterial (mat : Material) : Material :=
  { mat with NumFramesDirty := gNumFrameResources }

/-- The Dirty Propagation Tracker's `markDirty` for a render item (the same
`NumFramesDirty = gNumFrameResources` protocol; Castle.cpp line 38 comment
and spec section 4.3). -/
def markDirtyRenderItem (e : RenderItem) : RenderItem :=
  { e with NumFramesDirty := gNumFrameResources }

/-- The effect of one `UpdateObjectCBs` pass on a single render item's
record (write-and-decrement when dirty, skip otherwise); the characterization
lemma `UpdateObjectCBs_items` below ties this to the full loop. -/
def objFrameStep (e : RenderItem) : RenderItem :=
  if e.NumFramesDirty > 0 then { e with NumFramesDirty := e.NumFramesDirty - 1 } else e

/-- The effect of one `UpdateMaterialCBs` pass on a single material record. -/
def matFrameStep (mat : Material) : Material :=
  if mat.NumFramesDirty > 0 then { mat with NumFramesDirty := mat.NumFramesDirty - 1 } else mat

/-- The mutable application state of `TreeBillboardsApp` that the frame loop
reads and writes (Castle.cpp lines 111-152 and the `D3DApp` base members it
uses). `currentFence` is `mCurrentFence`; `gpuCompleted` is the value the
driver's fence would report through `mFence->GetCompletedValue()`. Camera
state (`view`, `proj`, `eyePos`) is set by `UpdateCamera` before the frame
body runs and is an input here (camera math is out of scope, spec section 1).
The waves simulation and its dynamic vertex buffer (`UpdateWaves`) touch no
state any claim mentions and are omitted. -/
structure AppState where
  currFrameResourceIndex : Fin numSlots
  frameResources : Fin numSlots → FrameResource
  currentFence : Nat
  gpuCompleted : Nat
  allRitems : List RenderItem
  materials : List (String × Material)
  ritemLayer : RenderLayer → List RenderItem
  view : Mat4
  proj : Mat4
  eyePos : Vec3
  clientWidth : ℚ
  clientHeight : ℚ
  mainPassCB : PassConstants

/-- `(i + 1) % gNumFrameResources` (Castle.cpp line 243). -/
def nextFrameIndex (i : Fin numSlots) : Fin numSlots :=
  ⟨(i.val + 1) % numSlots, Nat.mod_lt _ (by decide)⟩

/-- `int mCurrFrameResourceIndex = 0;` (Castle.cpp line 115). -/
def ringStartIndex : Fin numSlots := ⟨0, by decide⟩

/-- The ring index held in `mCurrFrameResourceIndex` after `k` frames:
`ringIndexTrace 0` is the initial value and `ringIndexTrace k` (for `k ≥ 1`)
is the index of the slot used by the `k`-th rendered frame, since `Update`
advances the index before using it (line 243). -/
def ringIndexTrace : Nat → Fin numSlots
  | 0 => ringStartIndex
  | k + 1 => nextFrameIndex (ringIndexTrace k)

/-- The blocking fence wait of Castle.cpp lines 250-252
(`SetEventOnCompletion(target, event)` + `WaitForSingleObject(event,
INFINITE)`), modelled by its contract: the call returns only once the
fence's completed value has reached `target`, so the completed value
observed afterwards is at least `target` (and fence completion is monotone,
so it is also at least the previously observed `completed`). A device loss
during the wait is fatal and unmodelled (spec section 7(a)). -/
def waitUntil (completed target : Nat) : Nat := max completed target

/-- The Acquiring phase of the frame loop (Castle.cpp lines 242-254): advance
the ring index, select the slot there, and, if the slot's stamped fence value
is nonzero and not yet retired, block until it is. Returns the new ring index
and the fence-completed value observed once the phase is over; the slot's
buffers are only touched after this phase (lines 256-260). -/
def acquirePhase (s : AppState) : Fin numSlots × Nat :=
  let idx := nextFrameIndex s.currFrameResourceIndex
  let curr := s.frameResources idx
  if curr.Fence ≠ 0 ∧ s.gpuCompleted < curr.Fence then
    (idx, waitUntil s.gpuCompleted curr.Fence)
  else
    (idx, s.gpuCompleted)

/-- The pass-global constant block as rebuilt by `UpdateMainPassCB`
(Castle.cpp lines 471-507) from the camera and timer state, starting from
the previous frame's `mMainPassCB` (fields the function does not assign,
such as `FogColor` and the lights other than 3 and 4, keep their old
values; lights 0-2 are commented out in the source). -/
def computeMainPassCB (view proj : Mat4) (eyePos : Vec3)
    (clientWidth clientHeight : ℚ) (totalTime deltaTime : ℚ)
    (prev : PassConstants) : PassConstants :=
  let viewProj := XMMatrixMultiply view proj
  { prev with
    View := XMMatrixTranspose view
    InvView := XMMatrixTranspose (XMMatrixInverse view)
    Proj := XMMatrixTranspose proj
    InvProj := XMMatrixTranspose (XMMatrixInverse proj)
    ViewProj := XMMatrixTranspose viewProj
    InvViewProj := XMMatrixTranspose (XMMatrixInverse viewProj)
    EyePosW := eyePos
    RenderTargetSize := ⟨clientWidth, clientHeight⟩
    InvRenderTargetSize := ⟨1 / clientWidth, 1 / clientHeight⟩
    NearZ := 1
    FarZ := 1000
    TotalTime := totalTime
    DeltaTime := deltaTime
    AmbientLight := ⟨1/4, 1/4, 7/20, 1⟩
    Lights := Function.update
      (Function.update prev.Lights 3
        { prev.Lights 3 with Position := ⟨0, 7/2, -3/4⟩, Strength := ⟨0, 0, 2⟩ })
      4 { prev.Lights 4 with Position := ⟨0, 7/2, -11⟩, Strength := ⟨2, 0, 0⟩ } }

/-- One pass of `TreeBillboardsApp::Update` (Castle.cpp lines 237-261) after
the camera/keyboard handling: advance the ring (line 243), wait on the fence
if the slot is in flight (lines 246-254), run the scene mutation callback
`AnimateMaterials` (line 256), propagate dirty object and material constants
into the acquired slot (lines 257-258), and rebuild and write the pass block
unconditionally (line 259). `dt`/`totalTime` are the `GameTimer` readings.
A `CapacityError` escaping from a constant write is fatal (spec section
7(b)); nothing later in the frame runs in that case. -/
def updateStep (dt totalTime : ℚ) (s : AppState) : Except CapacityError AppState :=
  let idx := nextFrameIndex s.currFrameResourceIndex
  let curr := s.frameResources idx
  let completed := (acquirePhase s).2
  let mats1 := AnimateMaterials dt s.materials
  match UpdateObjectCBs s.allRitems curr.ObjectCB with
  | .error err => .error err
  | .ok (ritems1, objCB1) =>
    match UpdateMaterialCBs mats1 curr.MaterialCB with
    | .error err => .error err
    | .ok (mats2, matCB1) =>
      let pass1 := computeMainPassCB s.view s.proj s.eyePos s.clientWidth s.clientHeight
        totalTime dt s.mainPassCB
      match curr.PassCB.CopyData 0 pass1 with
      | .error err => .error err
      | .ok passCB1 =>
        .ok { s with
          currFrameResourceIndex := idx
          gpuCompleted := completed
          frameResources := Function.update s.frameResources idx
            { curr with ObjectCB := objCB1, MaterialCB := matCB1, PassCB := passCB1 }
          allRitems := ritems1
          materials := mats2
          mainPassCB := pass1 }

/-- `n` consecutive frames of the Update phase (same timer readings each
frame; the claims under study do not depend on the timer values). -/
def updateFrames (dt totalTime : ℚ) : Nat → AppState → Except CapacityError AppState
  | 0, s => .ok s
  | n + 1, s =>
    match updateStep dt totalTime s with
    | .error err => .error err
    | .ok s1 => updateFrames dt totalTime n s1

/-- The command kinds `TreeBillboardsApp::Draw` and `DrawRenderItems` record
(Castle.cpp lines 263-317 and 1842-1872), with the arguments the claims can
observe. Root-parameter addresses are represented by the constant-buffer
element index they point at; `Option` payloads read through `RenderItem.Mat`
are `none` exactly when the C++ would dereference a null `Material*`. -/
inductive Cmd
  | Reset (pso : String)
  | SetViewports
  | SetScissorRects
  | BarrierPresentToRenderTarget
  | ClearRenderTargetView
  | ClearDepthStencilView
  | SetRenderTargets
  | SetDescriptorHeaps
  | SetGraphicsRootSignature
  | SetPassConstantBufferView
  | SetPipelineState (pso : String)
  | SetVertexBuffers (geo : String)
  | SetIndexBuffer (geo : String)
  | SetPrimitiveTopology (t : PrimitiveTopology)
  | SetDescriptorTable (srvHeapIndex : Option Nat)
  | SetObjectConstantBufferView (objCBIndex : Nat)
  | SetMaterialConstantBufferView (matCBIndex : Option Nat)
  | DrawIndexedInstanced (indexCount instanceCount startIndex : Nat)
      (baseVertex : Int) (startInstance : Nat)
  | BarrierRenderTargetToPresent
deriving DecidableEq

/-- The commands the body of the `DrawRenderItems` loop records for one
render item (Castle.cpp lines 1851-1871). -/
def drawRenderItemCmds (ri : RenderItem) : List Cmd :=
  [ .SetVertexBuffers ri.Geo
  , .SetIndexBuffer ri.Geo
  , .SetPrimitiveTopology ri.PrimitiveType
  , .SetDescriptorTable (ri.Mat.map Material.DiffuseSrvHeapIndex)
  , .SetObjectConstantBufferView ri.ObjCBIndex
  , .SetMaterialConstantBufferView (ri.Mat.map Material.MatCBIndex)
  , .DrawIndexedInstanced ri.IndexCount 1 ri.StartIndexLocation ri.BaseVertexLocation 0 ]

/-- `TreeBillboardsApp::DrawRenderItems` (Castle.cpp lines 1842-1872). -/
def DrawRenderItems : List RenderItem → List Cmd
  | [] => []
  | ri :: rest => drawRenderItemCmds ri ++ DrawRenderItems rest

/-- Commands recorded from a `DrawRenderItems` call over the given
`mRitemLayer` bucket. The first component is provenance metadata only — it
records which bucket the command was recorded from; projecting with
`Prod.snd` gives the actual command stream. -/
def tagCmds (layer : RenderLayer) (cs : List Cmd) : List (Option RenderLayer × Cmd) :=
  cs.map fun c => (some layer, c)

/-- Commands recorded outside any `DrawRenderItems` call (no provenance). -/
def untagged (cs : List Cmd) : List (Option RenderLayer × Cmd) :=
  cs.map fun c => (none, c)

/-- The Recording phase of `TreeBillboardsApp::Draw` (Castle.cpp lines
263-313): the fixed setup prefix (the command-list `Reset` binds the
`"opaque"` pipeline state, line 273), then one `DrawRenderItems` call per
`mRitemLayer` bucket in source order — opaque (line 297), alpha-tested
(lines 299-300), tree-sprite billboards (lines 302-303), transparent (lines
305-306) — each non-opaque bucket preceded by its `SetPipelineState`, and
the closing barrier (line 309). -/
def recordDrawCommands (layer : RenderLayer → List RenderItem) :
    List (Option RenderLayer × Cmd) :=
  untagged [ .Reset "opaque", .SetViewports, .SetScissorRects
           , .BarrierPresentToRenderTarget, .ClearRenderTargetView
           , .ClearDepthStencilView, .SetRenderTargets, .SetDescriptorHeaps
           , .SetGraphicsRootSignature, .SetPassConstantBufferView ]
  ++ tagCmds .Opaque (DrawRenderItems (layer .Opaque))
  ++ untagged [ .SetPipelineState "alphaTested" ]
  ++ tagCmds .AlphaTested (DrawRenderItems (layer .AlphaTested))
  ++ untagged [ .SetPipelineState "treeSprites" ]
  ++ tagCmds .AlphaTestedTreeSprites (DrawRenderItems (layer .AlphaTestedTreeSprites))
  ++ untagged [ .SetPipelineState "transparent" ]
  ++ tagCmds .Transparent (DrawRenderItems (layer .Transparent))
  ++ untagged [ .BarrierRenderTargetToPresent ]

/-- One pass of `TreeBillboardsApp::Draw` (Castle.cpp lines 263-330): record
the frame's command list, submit it, and allocate the next fence value —
`mCurrFrameResource->Fence = ++mCurrentFence` (line 324) stamps the slot
just used with exactly the value just allocated, and `Signal` (line 329)
asks the GPU to retire that value once this submission completes (the
GPU-side completion itself is external and shows up in `gpuCompleted`
through the wait model). Returns the new state and the recorded commands. -/
def drawStep (s : AppState) : AppState × List (Option RenderLayer × Cmd) :=
  let cmds := recordDrawCommands s.ritemLayer
  let newFence := s.currentFence + 1
  ({ s with
      currentFence := newFence
      frameResources := Function.update s.frameResources s.currFrameResourceIndex
        { s.frameResources s.currFrameResourceIndex with Fence := newFence } }
  , cmds)

/-- `n` consecutive Draw submissions (state part only). -/
def drawSteps : Nat → AppState → AppState
  | 0, s => s
  | n + 1, s => drawSteps n (drawStep s).1

/-- An event in the life of one entity's dirty counter: a `markDirty`
(a mutation site setting `NumFramesDirty = gNumFrameResources`) or one
per-frame pass of the constant-update loop over that entity. -/
inductive EntityOp
  | mark
  | frame
deriving DecidableEq

/-- A sequence of mark/frame events applied to one render item. -/
def applyRenderItemOps : List EntityOp → RenderItem → RenderItem
  | [], e => e
  | .mark :: ops, e => applyRenderItemOps ops (markDirtyRenderItem e)
  | .frame :: ops, e => applyRenderItemOps ops (objFrameStep e)

/-- A sequence of mark/frame events applied to one material. -/
def applyMaterialOps : List EntityOp → Material → Material
  | [], m => m
  | .mark :: ops, m => applyMaterialOps ops (markDirtyMaterial m)
  | .frame :: ops, m => applyMaterialOps ops (matFrameStep m)

/-- A pass block with every field zeroed, standing for arbitrary initial
memory in concrete examples. -/
def zeroPass : PassConstants :=
  { View := fun _ _ => 0, InvView := fun _ _ => 0, Proj := fun _ _ => 0
    InvProj := fun _ _ => 0, ViewProj := fun _ _ => 0, InvViewProj := fun _ _ => 0
    EyePosW := ⟨0, 0, 0⟩, RenderTargetSize := ⟨0, 0⟩, InvRenderTargetSize := ⟨0, 0⟩
    NearZ := 0, FarZ := 0, TotalTime := 0, DeltaTime := 0
    AmbientLight := ⟨0, 0, 0, 0⟩, FogColor := ⟨0, 0, 0, 0⟩
    Lights := fun _ => ⟨⟨0, 0, 0⟩, ⟨0, 0, 0⟩, ⟨0, 0, 0⟩⟩ }

/-- A concrete ring slot whose stamped fence is `f`, with one element
provisioned in each constant region. -/
def sampleSlot (f : Nat) : FrameResource :=
  { Fence := f
    ObjectCB := { elementCount := 1, data := fun _ => objectConstantsOf {} }
    MaterialCB := { elementCount := 1, data := fun _ => materialConstantsOf {} }
    PassCB := { elementCount := 1, data := fun _ => zeroPass } }

/-- A concrete application state: every slot stamped with fence value 5
while the GPU has only retired up to 3, an empty scene, identity camera. -/
def sampleState : AppState :=
  { currFrameResourceIndex := ⟨0, by decide⟩
    frameResources := fun _ => sampleSlot 5
    currentFence := 5
    gpuCompleted := 3
    allRitems := []
    materials := []
    ritemLayer := fun _ => []
    view := Identity4x4
    proj := Identity4x4
    eyePos := ⟨0, 0, 0⟩
    clientWidth := 800
    clientHeight := 600
    mainPassCB := zeroPass }

/-- `sampleState` with the GPU already past every stamp (retired up to 7). -/
def sampleStateRetired : AppState := { sampleState with gpuCompleted := 7 }

/-! ### Shared lemmas about the frame step -/

/-- The first component of the Acquiring phase is the advanced ring index. -/
theorem acquirePhase_fst (s : AppState) :
    (acquirePhase s).1 = nextFrameIndex s.currFrameResourceIndex := by
  simp only [acquirePhase]
  split <;> rfl

/-- `nextFrameIndex` is literally `(i + 1) % numSlots` on values. -/
theorem nextFrameIndex_val (i : Fin numSlots) :
    (nextFrameIndex i).val = (i.val + 1) % numSlots := rfl

/-- The ring index after `k` frames is `k % numSlots`. -/
theorem ringIndexTrace_val (k : Nat) : (ringIndexTrace k).val = k % numSlots := by
  induction k with
  | zero => rfl
  | succ k ih =>
    rw [ringIndexTrace, nextFrameIndex_val, ih]
    show (k % 3 + 1) % 3 = (k + 1) % 3
    omega

/-- The fields of a successful frame step that do not depend on the scene
contents: the ring index advanced once, the observed fence progress is the
Acquiring phase's, the CPU fence allocator was not touched, and the pass
block was rebuilt and written at element 0 of the acquired slot's pass
region. -/
theorem updateStep_ok_fields (dt tt : ℚ) (s s1 : AppState)
    (h : updateStep dt tt s = .ok s1) :
    s1.currFrameResourceIndex = nextFrameIndex s.currFrameResourceIndex ∧
    s1.gpuCompleted = (acquirePhase s).2 ∧
    s1.currentFence = s.currentFence ∧
    s1.mainPassCB = computeMainPassCB s.view s.proj s.eyePos s.clientWidth
      s.clientHeight tt dt s.mainPassCB ∧
    (s1.frameResources (nextFrameIndex s.currFrameResourceIndex)).PassCB =
      { (s.frameResources (nextFrameIndex s.currFrameResourceIndex)).PassCB with
        data := Function.update
          (s.frameResources (nextFrameIndex s.currFrameResourceIndex)).PassCB.data 0
          (computeMainPassCB s.view s.proj s.eyePos s.clientWidth s.clientHeight
            tt dt s.mainPassCB) } := by
  simp only [updateStep] at h
  cases ho : UpdateObjectCBs s.allRitems
      (s.frameResources (nextFrameIndex s.currFrameResourceIndex)).ObjectCB with
  | error err => rw [ho] at h; exact absurd h (by simp)
  | ok p1 =>
    rw [ho] at h
    obtain ⟨ritems1, objCB1⟩ := p1
    cases hm : UpdateMaterialCBs (AnimateMaterials dt s.materials)
        (s.frameResources (nextFrameIndex s.currFrameResourceIndex)).MaterialCB with
    | error err => rw [hm] at h; exact absurd h (by simp)
    | ok p2 =>
      rw [hm] at h
      obtain ⟨mats2, matCB1⟩ := p2
      cases hp : UploadBuffer.CopyData
          (s.frameResources (nextFrameIndex s.currFrameResourceIndex)).PassCB 0
          (computeMainPassCB s.view s.proj s.eyePos s.clientWidth s.clientHeight
            tt dt s.mainPassCB) with
      | error err => rw [hp] at h; exact absurd h (by simp)
      | ok passCB1 =>
        rw [hp] at h
        simp only [Except.ok.injEq] at h
        subst h
        simp only [UploadBuffer.CopyData] at hp
        split at hp
        · simp only [Except.ok.injEq] at hp
          subst hp
          exact ⟨rfl, rfl, rfl, rfl, by simp [Function.update_same]⟩
        · exact absurd hp (by simp)

/-- On success, `UpdateObjectCBs` transforms each item record by
`objFrameStep` (write-and-decrement when dirty, skip otherwise). -/
theorem UpdateObjectCBs_ok_items (items : List RenderItem) :
    ∀ (cb : UploadBuffer ObjectConstants) res,
      UpdateObjectCBs items cb = .ok res → res.1 = List.map objFrameStep items := by
  induction items with
  | nil =>
    intro cb res h
    simp only [UpdateObjectCBs, Except.ok.injEq] at h
    rw [← h]
    rfl
  | cons e rest ih =>
    intro cb res h
    simp only [UpdateObjectCBs] at h
    by_cases hd : e.NumFramesDirty > 0
    · rw [if_pos hd] at h
      cases hc : UploadBuffer.CopyData cb e.ObjCBIndex (objectConstantsOf e) with
      | error err => rw [hc] at h; exact absurd h (by simp)
      | ok cb1 =>
        rw [hc] at h
        dsimp only at h
        cases hr : UpdateObjectCBs rest cb1 with
        | error err => rw [hr] at h; exact absurd h (by simp)
        | ok pr =>
          rw [hr] at h
          obtain ⟨rest1, cb2⟩ := pr
          simp only [Except.ok.injEq] at h
          have h1 := ih cb1 (rest1, cb2) hr
          rw [← h]
          simp only [List.map_cons, objFrameStep, if_pos hd]
          exact congrArg _ h1
    · rw [if_neg hd] at h
      cases hr : UpdateObjectCBs rest cb with
      | error err => rw [hr] at h; exact absurd h (by simp)
      | ok pr =>
        rw [hr] at h
        obtain ⟨rest1, cb1⟩ := pr
        simp only [Except.ok.injEq] at h
        have h1 := ih cb (rest1, cb1) hr
        rw [← h]
        simp only [List.map_cons, objFrameStep, if_neg hd]
        exact congrArg _ h1

/-- On success, `UpdateMaterialCBs` transforms each material record by
`matFrameStep`, keeping its key. -/
theorem UpdateMaterialCBs_ok_mats (mats : List (String × Material)) :
    ∀ (cb : UploadBuffer MaterialConstants) res,
      UpdateMaterialCBs mats cb = .ok res →
        res.1 = List.map (fun p => (p.1, matFrameStep p.2)) mats := by
  induction mats with
  | nil =>
    intro cb res h
    simp only [UpdateMaterialCBs, Except.ok.injEq] at h
    rw [← h]
    rfl
  | cons p rest ih =>
    obtain ⟨nm, mat⟩ := p
    intro cb res h
    simp only [UpdateMaterialCBs] at h
    by_cases hd : mat.NumFramesDirty > 0
    · rw [if_pos hd] at h
      cases hc : UploadBuffer.CopyData cb mat.MatCBIndex (materialConstantsOf mat) with
      | error err => rw [hc] at h; exact absurd h (by simp)
      | ok cb1 =>
        rw [hc] at h
        dsimp only at h
        cases hr : UpdateMaterialCBs rest cb1 with
        | error err => rw [hr] at h; exact absurd h (by simp)
        | ok pr =>
          rw [hr] at h
          obtain ⟨rest1, cb2⟩ := pr
          simp only [Except.ok.injEq] at h
          have h1 := ih cb1 (rest1, cb2) hr
          rw [← h]
          simp only [List.map_cons, matFrameStep, if_pos hd]
          exact congrArg _ h1
    · rw [if_neg hd] at h
      cases hr : UpdateMaterialCBs rest cb with
      | error err => rw [hr] at h; exact absurd h (by simp)
      | ok pr =>
        rw [hr] at h
        obtain ⟨rest1, cb1⟩ := pr
        simp only [Except.ok.injEq] at h
        have h1 := ih cb (rest1, cb1) hr
        rw [← h]
        simp only [List.map_cons, matFrameStep, if_neg hd]
        exact congrArg _ h1

/-- The dirty counter after one frame pass, render-item side. -/
theorem objFrameStep_dirty (e : RenderItem) :
    (objFrameStep e).NumFramesDirty =
      if e.NumFramesDirty > 0 then e.NumFramesDirty - 1 else e.NumFramesDirty := by
  unfold objFrameStep
  split <;> rfl

/-- The dirty counter after one frame pass, material side. -/
theorem matFrameStep_dirty (m : Material) :
    (matFrameStep m).NumFramesDirty =
      if m.NumFramesDirty > 0 then m.NumFramesDirty - 1 else m.NumFramesDirty := by
  unfold matFrameStep
  split <;> rfl

/-- Dirty-counter bounds are preserved by any mark/frame sequence
(render-item side). -/
theorem applyRenderItemOps_bounds (ops : List EntityOp) :
    ∀ e : RenderItem, 0 ≤ e.NumFramesDirty → e.NumFramesDirty ≤ gNumFrameResources →
      0 ≤ (applyRenderItemOps ops e).NumFramesDirty ∧
        (applyRenderItemOps ops e).NumFramesDirty ≤ gNumFrameResources := by
  induction ops with
  | nil => exact fun e h0 h3 => ⟨h0, h3⟩
  | cons op ops ih =>
    intro e h0 h3
    cases op with
    | mark =>
      exact ih (markDirtyRenderItem e) (by simp [markDirtyRenderItem, gNumFrameResources])
        (by simp [markDirtyRenderItem])
    | frame =>
      refine ih (objFrameStep e) ?_ ?_ <;> rw [objFrameStep_dirty] <;> split <;> omega

/-- Dirty-counter bounds are preserved by any mark/frame sequence
(material side). -/
theorem applyMaterialOps_bounds (ops : List EntityOp) :
    ∀ m : Material, 0 ≤ m.NumFramesDirty → m.NumFramesDirty ≤ gNumFrameResources →
      0 ≤ (applyMaterialOps ops m).NumFramesDirty ∧
        (applyMaterialOps ops m).NumFramesDirty ≤ gNumFrameResources := by
  induction ops with
  | nil => exact fun m h0 h3 => ⟨h0, h3⟩
  | cons op ops ih =>
    intro m h0 h3
    cases op with
    | mark =>
      exact ih (markDirtyMaterial m) (by simp [markDirtyMaterial, gNumFrameResources])
        (by simp [markDirtyMaterial])
    | frame =>
      refine ih (matFrameStep m) ?_ ?_ <;> rw [matFrameStep_dirty] <;> split <;> omega

/-- A dirty singleton item list: the item's constants are written at its
index and its counter decremented. -/
theorem UpdateObjectCBs_singleton_dirty (e : RenderItem)
    (cb : UploadBuffer ObjectConstants) (hd : e.NumFramesDirty > 0)
    (hcap : e.ObjCBIndex < cb.elementCount) :
    UpdateObjectCBs [e] cb =
      .ok ([{ e with NumFramesDirty := e.NumFramesDirty - 1 }],
        { cb with data := Function.update cb.data e.ObjCBIndex (objectConstantsOf e) }) := by
  simp only [UpdateObjectCBs, UploadBuffer.CopyData, if_pos hd, if_pos hcap]

/-- A clean singleton item list: nothing is recomputed or written. -/
theorem UpdateObjectCBs_singleton_clean (e : RenderItem)
    (cb : UploadBuffer ObjectConstants) (hd : ¬ e.NumFramesDirty > 0) :
    UpdateObjectCBs [e] cb = .ok ([e], cb) := by
  simp only [UpdateObjectCBs, if_neg hd]

/-- A dirty singleton item whose index exceeds the provisioned region:
the write is refused as a fatal capacity error. -/
theorem UpdateObjectCBs_singleton_over (e : RenderItem)
    (cb : UploadBuffer ObjectConstants) (hd : e.NumFramesDirty > 0)
    (hcap : cb.elementCount ≤ e.ObjCBIndex) :
    UpdateObjectCBs [e] cb = .error ⟨e.ObjCBIndex, cb.elementCount⟩ := by
  simp only [UpdateObjectCBs, UploadBuffer.CopyData, if_pos hd,
    if_neg (not_lt.mpr hcap)]

/-- A dirty singleton material list: the material's constants are written
at its index and its counter decremented. -/
theorem UpdateMaterialCBs_singleton_dirty (nm : String) (m : Material)
    (cb : UploadBuffer MaterialConstants) (hd : m.NumFramesDirty > 0)
    (hcap : m.MatCBIndex < cb.elementCount) :
    UpdateMaterialCBs [(nm, m)] cb =
      .ok ([(nm, { m with NumFramesDirty := m.NumFramesDirty - 1 })],
        { cb with data := Function.update cb.data m.MatCBIndex (materialConstantsOf m) }) := by
  simp only [UpdateMaterialCBs, UploadBuffer.CopyData, if_pos hd, if_pos hcap]

/-- A clean singleton material list: nothing is recomputed or written. -/
theorem UpdateMaterialCBs_singleton_clean (nm : String) (m : Material)
    (cb : UploadBuffer MaterialConstants) (hd : ¬ m.NumFramesDirty > 0) :
    UpdateMaterialCBs [(nm, m)] cb = .ok ([(nm, m)], cb) := by
  simp only [UpdateMaterialCBs, if_neg hd]

/-- A dirty singleton material whose index exceeds the provisioned region:
the write is refused as a fatal capacity error. -/
theorem UpdateMaterialCBs_singleton_over (nm : String) (m : Material)
    (cb : UploadBuffer MaterialConstants) (hd : m.NumFramesDirty > 0)
    (hcap : cb.elementCount ≤ m.MatCBIndex) :
    UpdateMaterialCBs [(nm, m)] cb = .error ⟨m.MatCBIndex, cb.elementCount⟩ := by
  simp only [UpdateMaterialCBs, UploadBuffer.CopyData, if_pos hd,
    if_neg (not_lt.mpr hcap)]

/-- Proof scaffolding: the state a successful frame step produces from a
scene holding exactly one dirty render item and no materials (the explicit
unfolding of `updateStep` for that shape). -/
def objStepState (dt tt : ℚ) (e : RenderItem) (s : AppState) : AppState :=
  let idx := nextFrameIndex s.currFrameResourceIndex
  let curr := s.frameResources idx
  let pass := computeMainPassCB s.view s.proj s.eyePos s.clientWidth s.clientHeight
    tt dt s.mainPassCB
  { s with
    currFrameResourceIndex := idx
    gpuCompleted := (acquirePhase s).2
    frameResources := Function.update s.frameResources idx
      { curr with
        ObjectCB := { curr.ObjectCB with
          data := Function.update curr.ObjectCB.data e.ObjCBIndex (objectConstantsOf e) }
        PassCB := { curr.PassCB with data := Function.update curr.PassCB.data 0 pass } }
    allRitems := [{ e with NumFramesDirty := e.NumFramesDirty - 1 }]
    materials := []
    mainPassCB := pass }

/-- A frame step over a singleton dirty render-item scene succeeds and
produces `objStepState`. -/
theorem updateStep_obj_singleton (dt tt : ℚ) (e : RenderItem) (s : AppState)
    (hA : s.allRitems = [e]) (hM : s.materials = [])
    (hd : e.NumFramesDirty > 0)
    (hcap : e.ObjCBIndex
      < (s.frameResources (nextFrameIndex s.currFrameResourceIndex)).ObjectCB.elementCount)
    (hp : 0
      < (s.frameResources (nextFrameIndex s.currFrameResourceIndex)).PassCB.elementCount) :
    updateStep dt tt s = .ok (objStepState dt tt e s) := by
  simp only [updateStep, objStepState]
  rw [hA, hM]
  rw [UpdateObjectCBs_singleton_dirty e _ hd hcap]
  simp only [AnimateMaterials, List.map_nil, UpdateMaterialCBs]
  simp only [UploadBuffer.CopyData, if_pos hp]

/-- `objStepState` leaves every slot's provisioned sizes unchanged. -/
theorem objStepState_slot_counts (dt tt : ℚ) (e : RenderItem) (s : AppState)
    (i : Fin numSlots) :
    ((objStepState dt tt e s).frameResources i).ObjectCB.elementCount
      = (s.frameResources i).ObjectCB.elementCount ∧
    ((objStepState dt tt e s).frameResources i).PassCB.elementCount
      = (s.frameResources i).PassCB.elementCount := by
  simp only [objStepState]
  rcases eq_or_ne i (nextFrameIndex s.currFrameResourceIndex) with h | h
  · subst h; rw [Function.update_same]; exact ⟨rfl, rfl⟩
  · rw [Function.update_noteq h]; exact ⟨rfl, rfl⟩

/-- After `objStepState`, the slot just acquired holds the item's packed
constants at its index. -/
theorem objStepState_read_written (dt tt : ℚ) (e : RenderItem) (s : AppState) :
    ((objStepState dt tt e s).frameResources
        (nextFrameIndex s.currFrameResourceIndex)).ObjectCB.data e.ObjCBIndex
      = objectConstantsOf e := by
  simp only [objStepState, Function.update_same]

/-- `objStepState` does not touch any slot other than the acquired one. -/
theorem objStepState_read_other (dt tt : ℚ) (e : RenderItem) (s : AppState)
    (i : Fin numSlots) (h : i ≠ nextFrameIndex s.currFrameResourceIndex) :
    (objStepState dt tt e s).frameResources i = s.frameResources i := by
  simp only [objStepState]
  exact Function.update_noteq h _ _

/-- Advancing the ring once never lands on the same slot. -/
theorem nextFrameIndex_ne : ∀ j : Fin numSlots, nextFrameIndex j ≠ j := by decide

/-- Advancing the ring twice never lands on the starting slot. -/
theorem nextFrameIndex_ne_two : ∀ j : Fin numSlots,
    nextFrameIndex (nextFrameIndex j) ≠ j := by decide

/-- Three consecutive advances visit every slot. -/
theorem nextFrameIndex_covers : ∀ i0 i : Fin numSlots,
    i = nextFrameIndex i0 ∨ i = nextFrameIndex (nextFrameIndex i0) ∨
      i = nextFrameIndex (nextFrameIndex (nextFrameIndex i0)) := by decide

/-- Unfolding one successful frame out of a frame sequence. -/
theorem updateFrames_succ (dt tt : ℚ) (n : Nat) (s s1 : AppState)
    (h : updateStep dt tt s = .ok s1) :
    updateFrames dt tt (n + 1) s = updateFrames dt tt n s1 := by
  show (match updateStep dt tt s with
        | .error err => Except.error err
        | .ok t => updateFrames dt tt n t) = updateFrames dt tt n s1
  rw [h]

/-- Three consecutive frame steps over a singleton scene holding one fully
dirty render item and no materials: the run succeeds, the item ends clean
with its payload untouched, and every one of the three ring slots ends
holding the item's packed constants at its constant index. -/
theorem objectPropagationThreeFrames (dt tt : ℚ) (e : RenderItem) (s : AppState)
    (hA : s.allRitems = [e]) (hM : s.materials = [])
    (hd : e.NumFramesDirty = 3)
    (hcap : ∀ i : Fin numSlots,
      e.ObjCBIndex < (s.frameResources i).ObjectCB.elementCount)
    (hp : ∀ i : Fin numSlots,
      0 < (s.frameResources i).PassCB.elementCount) :
    Except.map (fun t => t.allRitems) (updateFrames dt tt 3 s)
        = .ok [{ e with NumFramesDirty := 0 }] ∧
    ∀ i : Fin numSlots,
      Except.map (fun t => (t.frameResources i).ObjectCB.data e.ObjCBIndex)
          (updateFrames dt tt 3 s) = .ok (objectConstantsOf e) := by
  have h1 : updateStep dt tt s = .ok (objStepState dt tt e s) :=
    updateStep_obj_singleton dt tt e s hA hM (by omega) (hcap _) (hp _)
  have h2 : updateStep dt tt (objStepState dt tt e s)
      = .ok (objStepState dt tt { e with NumFramesDirty := e.NumFramesDirty - 1 }
          (objStepState dt tt e s)) := by
    refine updateStep_obj_singleton dt tt _ _ rfl rfl ?_ ?_ ?_
    · show e.NumFramesDirty - 1 > 0
      omega
    · show e.ObjCBIndex < _
      rw [(objStepState_slot_counts dt tt e s _).1]
      exact hcap _
    · rw [(objStepState_slot_counts dt tt e s _).2]
      exact hp _
  have h3 : updateStep dt tt (objStepState dt tt
        { e with NumFramesDirty := e.NumFramesDirty - 1 } (objStepState dt tt e s))
      = .ok (objStepState dt tt { e with NumFramesDirty := e.NumFramesDirty - 1 - 1 }
          (objStepState dt tt { e with NumFramesDirty := e.NumFramesDirty - 1 }
            (objStepState dt tt e s))) := by
    refine updateStep_obj_singleton dt tt _ _ rfl rfl ?_ ?_ ?_
    · show e.NumFramesDirty - 1 - 1 > 0
      omega
    · show e.ObjCBIndex < _
      rw [(objStepState_slot_counts dt tt _ _ _).1,
        (objStepState_slot_counts dt tt e s _).1]
      exact hcap _
    · rw [(objStepState_slot_counts dt tt _ _ _).2,
        (objStepState_slot_counts dt tt e s _).2]
      exact hp _
  have hrun : updateFrames dt tt 3 s
      = .ok (objStepState dt tt { e with NumFramesDirty := e.NumFramesDirty - 1 - 1 }
          (objStepState dt tt { e with NumFramesDirty := e.NumFramesDirty - 1 }
            (objStepState dt tt e s))) := by
    have st1 : updateFrames dt tt 3 s
        = updateFrames dt tt 2 (objStepState dt tt e s) :=
      updateFrames_succ dt tt 2 s _ h1
    have st2 : updateFrames dt tt 2 (objStepState dt tt e s)
        = updateFrames dt tt 1 (objStepState dt tt
            { e with NumFramesDirty := e.NumFramesDirty - 1 } (objStepState dt tt e s)) :=
      updateFrames_succ dt tt 1 _ _ h2
    have st3 : updateFrames dt tt 1 (objStepState dt tt
          { e with NumFramesDirty := e.NumFramesDirty - 1 } (objStepState dt tt e s))
        = updateFrames dt tt 0 (objStepState dt tt
            { e with NumFramesDirty := e.NumFramesDirty - 1 - 1 }
            (objStepState dt tt { e with NumFramesDirty := e.NumFramesDirty - 1 }
              (objStepState dt tt e s))) :=
      updateFrames_succ dt tt 0 _ _ h3
    rw [st1, st2, st3]
    rfl
  rw [hrun]
  constructor
  · simp only [Except.map]
    have hl : (objStepState dt tt { e with NumFramesDirty := e.NumFramesDirty - 1 - 1 }
          (objStepState dt tt { e with NumFramesDirty := e.NumFramesDirty - 1 }
            (objStepState dt tt e s))).allRitems
        = [{ e with NumFramesDirty := e.NumFramesDirty - 1 - 1 - 1 }] := rfl
    rw [hl, hd]
    norm_num
  · intro i
    simp only [Except.map]
    rcases nextFrameIndex_covers s.currFrameResourceIndex i with hi | hi | hi
    · -- slot written in the first frame, untouched afterwards
      subst hi
      rw [show (objStepState dt tt { e with NumFramesDirty := e.NumFramesDirty - 1 - 1 }
            (objStepState dt tt { e with NumFramesDirty := e.NumFramesDirty - 1 }
              (objStepState dt tt e s))).frameResources
              (nextFrameIndex s.currFrameResourceIndex)
          = (objStepState dt tt { e with NumFramesDirty := e.NumFramesDirty - 1 }
              (objStepState dt tt e s)).frameResources
              (nextFrameIndex s.currFrameResourceIndex) from
          objStepState_read_other dt tt _ _ _ (nextFrameIndex_ne_two _).symm]
      rw [show (objStepState dt tt { e with NumFramesDirty := e.NumFramesDirty - 1 }
            (objStepState dt tt e s)).frameResources
              (nextFrameIndex s.currFrameResourceIndex)
          = (objStepState dt tt e s).frameResources
              (nextFrameIndex s.currFrameResourceIndex) from
          objStepState_read_other dt tt _ _ _ (nextFrameIndex_ne _).symm]
      exact congrArg Except.ok (objStepState_read_written dt tt e s)
    · -- slot written in the second frame
      subst hi
      rw [show (objStepState dt tt { e with NumFramesDirty := e.NumFramesDirty - 1 - 1 }
            (objStepState dt tt { e with NumFramesDirty := e.NumFramesDirty - 1 }
              (objStepState dt tt e s))).frameResources
              (nextFrameIndex (nextFrameIndex s.currFrameResourceIndex))
          = (objStepState dt tt { e with NumFramesDirty := e.NumFramesDirty - 1 }
              (objStepState dt tt e s)).frameResources
              (nextFrameIndex (nextFrameIndex s.currFrameResourceIndex)) from
          objStepState_read_other dt tt _ _ _ (nextFrameIndex_ne _).symm]
      exact congrArg Except.ok
        (objStepState_read_written dt tt
          { e with NumFramesDirty := e.NumFramesDirty - 1 } (objStepState dt tt e s))
    · -- slot written in the third frame
      subst hi
      exact congrArg Except.ok
        (objStepState_read_written dt tt
          { e with NumFramesDirty := e.NumFramesDirty - 1 - 1 }
          (objStepState dt tt { e with NumFramesDirty := e.NumFramesDirty - 1 }
            (objStepState dt tt e s)))

/-- Proof scaffolding: the state a successful frame step produces from a
scene holding no render items and exactly one dirty material that is not
the animated `"water"` material. -/
def matStepState (dt tt : ℚ) (nm : String) (m : Material) (s : AppState) : AppState :=
  let idx := nextFrameIndex s.currFrameResourceIndex
  let curr := s.frameResources idx
  let pass := computeMainPassCB s.view s.proj s.eyePos s.clientWidth s.clientHeight
    tt dt s.mainPassCB
  { s with
    currFrameResourceIndex := idx
    gpuCompleted := (acquirePhase s).2
    frameResources := Function.update s.frameResources idx
      { curr with
        MaterialCB := { curr.MaterialCB with
          data := Function.update curr.MaterialCB.data m.MatCBIndex
            (materialConstantsOf m) }
        PassCB := { curr.PassCB with data := Function.update curr.PassCB.data 0 pass } }
    allRitems := []
    materials := [(nm, { m with NumFramesDirty := m.NumFramesDirty - 1 })]
    mainPassCB := pass }

/-- A frame step over a singleton dirty material scene (not `"water"`, so
the scripted animation leaves it alone) succeeds and produces
`matStepState`. -/
theorem updateStep_mat_singleton (dt tt : ℚ) (nm : String) (m : Material)
    (s : AppState) (hA : s.allRitems = []) (hM : s.materials = [(nm, m)])
    (hw : ¬ nm = "water") (hd : m.NumFramesDirty > 0)
    (hcap : m.MatCBIndex
      < (s.frameResources (nextFrameIndex s.currFrameResourceIndex)).MaterialCB.elementCount)
    (hp : 0
      < (s.frameResources (nextFrameIndex s.currFrameResourceIndex)).PassCB.elementCount) :
    updateStep dt tt s = .ok (matStepState dt tt nm m s) := by
  simp only [updateStep, matStepState]
  rw [hA, hM]
  simp only [AnimateMaterials, List.map_cons, List.map_nil, if_neg hw]
  simp only [UpdateObjectCBs]
  rw [UpdateMaterialCBs_singleton_dirty nm m _ hd hcap]
  simp only [UploadBuffer.CopyData, if_pos hp]

/-- `matStepState` leaves every slot's provisioned sizes unchanged. -/
theorem matStepState_slot_counts (dt tt : ℚ) (nm : String) (m : Material)
    (s : AppState) (i : Fin numSlots) :
    ((matStepState dt tt nm m s).frameResources i).MaterialCB.elementCount
      = (s.frameResources i).MaterialCB.elementCount ∧
    ((matStepState dt tt nm m s).frameResources i).PassCB.elementCount
      = (s.frameResources i).PassCB.elementCount := by
  simp only [matStepState]
  rcases eq_or_ne i (nextFrameIndex s.currFrameResourceIndex) with h | h
  · subst h; rw [Function.update_same]; exact ⟨rfl, rfl⟩
  · rw [Function.update_noteq h]; exact ⟨rfl, rfl⟩

/-- After `matStepState`, the slot just acquired holds the material's packed
constants at its index. -/
theorem matStepState_read_written (dt tt : ℚ) (nm : String) (m : Material)
    (s : AppState) :
    ((matStepState dt tt nm m s).frameResources
        (nextFrameIndex s.currFrameResourceIndex)).MaterialCB.data m.MatCBIndex
      = materialConstantsOf m := by
  simp only [matStepState, Function.update_same]

/-- `matStepState` does not touch any slot other than the acquired one. -/
theorem matStepState_read_other (dt tt : ℚ) (nm : String) (m : Material)
    (s : AppState) (i : Fin numSlots)
    (h : i ≠ nextFrameIndex s.currFrameResourceIndex) :
    (matStepState dt tt nm m s).frameResources i = s.frameResources i := by
  simp only [matStepState]
  exact Function.update_noteq h _ _

/-- Three consecutive frame steps over a singleton scene holding one fully
dirty material (not the animated `"water"` entry, so no further mutation
happens) and no render items: the run succeeds, the material ends clean
with its payload untouched, and every one of the three ring slots ends
holding its packed constants at its constant index. -/
theorem materialPropagationThreeFrames (dt tt : ℚ) (nm : String) (m : Material)
    (s : AppState) (hA : s.allRitems = []) (hM : s.materials = [(nm, m)])
    (hw : ¬ nm = "water") (hd : m.NumFramesDirty = 3)
    (hcap : ∀ i : Fin numSlots,
      m.MatCBIndex < (s.frameResources i).MaterialCB.elementCount)
    (hp : ∀ i : Fin numSlots,
      0 < (s.frameResources i).PassCB.elementCount) :
    Except.map (fun t => t.materials) (updateFrames dt tt 3 s)
        = .ok [(nm, { m with NumFramesDirty := 0 })] ∧
    ∀ i : Fin numSlots,
      Except.map (fun t => (t.frameResources i).MaterialCB.data m.MatCBIndex)
          (updateFrames dt tt 3 s) = .ok (materialConstantsOf m) := by
  have h1 : updateStep dt tt s = .ok (matStepState dt tt nm m s) :=
    updateStep_mat_singleton dt tt nm m s hA hM hw (by omega) (hcap _) (hp _)
  have h2 : updateStep dt tt (matStepState dt tt nm m s)
      = .ok (matStepState dt tt nm { m with NumFramesDirty := m.NumFramesDirty - 1 }
          (matStepState dt tt nm m s)) := by
    refine updateStep_mat_singleton dt tt nm _ _ rfl rfl hw ?_ ?_ ?_
    · show m.NumFramesDirty - 1 > 0
      omega
    · show m.MatCBIndex < _
      rw [(matStepState_slot_counts dt tt nm m s _).1]
      exact hcap _
    · rw [(matStepState_slot_counts dt tt nm m s _).2]
      exact hp _
  have h3 : updateStep dt tt (matStepState dt tt nm
        { m with NumFramesDirty := m.NumFramesDirty - 1 } (matStepState dt tt nm m s))
      = .ok (matStepState dt tt nm { m with NumFramesDirty := m.NumFramesDirty - 1 - 1 }
          (matStepState dt tt nm { m with NumFramesDirty := m.NumFramesDirty - 1 }
            (matStepState dt tt nm m s))) := by
    refine updateStep_mat_singleton dt tt nm _ _ rfl rfl hw ?_ ?_ ?_
    · show m.NumFramesDirty - 1 - 1 > 0
      omega
    · show m.MatCBIndex < _
      rw [(matStepState_slot_counts dt tt nm _ _ _).1,
        (matStepState_slot_counts dt tt nm m s _).1]
      exact hcap _
    · rw [(matStepState_slot_counts dt tt nm _ _ _).2,
        (matStepState_slot_counts dt tt nm m s _).2]
      exact hp _
  have hrun : updateFrames dt tt 3 s
      = .ok (matStepState dt tt nm { m with NumFramesDirty := m.NumFramesDirty - 1 - 1 }
          (matStepState dt tt nm { m with NumFramesDirty := m.NumFramesDirty - 1 }
            (matStepState dt tt nm m s))) := by
    have st1 : updateFrames dt tt 3 s
        = updateFrames dt tt 2 (matStepState dt tt nm m s) :=
      updateFrames_succ dt tt 2 s _ h1
    have st2 : updateFrames dt tt 2 (matStepState dt tt nm m s)
        = updateFrames dt tt 1 (matStepState dt tt nm
            { m with NumFramesDirty := m.NumFramesDirty - 1 } (matStepState dt tt nm m s)) :=
      updateFrames_succ dt tt 1 _ _ h2
    have st3 : updateFrames dt tt 1 (matStepState dt tt nm
          { m with NumFramesDirty := m.NumFramesDirty - 1 } (matStepState dt tt nm m s))
        = updateFrames dt tt 0 (matStepState dt tt nm
            { m with NumFramesDirty := m.NumFramesDirty - 1 - 1 }
            (matStepState dt tt nm { m with NumFramesDirty := m.NumFramesDirty - 1 }
              (matStepState dt tt nm m s))) :=
      updateFrames_succ dt tt 0 _ _ h3
    rw [st1, st2, st3]
    rfl
  rw [hrun]
  constructor
  · simp only [Except.map]
    have hl : (matStepState dt tt nm { m with NumFramesDirty := m.NumFramesDirty - 1 - 1 }
          (matStepState dt tt nm { m with NumFramesDirty := m.NumFramesDirty - 1 }
            (matStepState dt tt nm m s))).materials
        = [(nm, { m with NumFramesDirty := m.NumFramesDirty - 1 - 1 - 1 })] := rfl
    rw [hl, hd]
    norm_num
  · intro i
    simp only [Except.map]
    rcases nextFrameIndex_covers s.currFrameResourceIndex i with hi | hi | hi
    · subst hi
      rw [show (matStepState dt tt nm { m with NumFramesDirty := m.NumFramesDirty - 1 - 1 }
            (matStepState dt tt nm { m with NumFramesDirty := m.NumFramesDirty - 1 }
              (matStepState dt tt nm m s))).frameResources
              (nextFrameIndex s.currFrameResourceIndex)
          = (matStepState dt tt nm { m with NumFramesDirty := m.NumFramesDirty - 1 }
              (matStepState dt tt nm m s)).frameResources
              (nextFrameIndex s.currFrameResourceIndex) from
          matStepState_read_other dt tt nm _ _ _ (nextFrameIndex_ne_two _).symm]
      rw [show (matStepState dt tt nm { m with NumFramesDirty := m.NumFramesDirty - 1 }
            (matStepState dt tt nm m s)).frameResources
              (nextFrameIndex s.currFrameResourceIndex)
          = (matStepState dt tt nm m s).frameResources
              (nextFrameIndex s.currFrameResourceIndex) from
          matStepState_read_other dt tt nm _ _ _ (nextFrameIndex_ne _).symm]
      exact congrArg Except.ok (matStepState_read_written dt tt nm m s)
    · subst hi
      rw [show (matStepState dt tt nm { m with NumFramesDirty := m.NumFramesDirty - 1 - 1 }
            (matStepState dt tt nm { m with NumFramesDirty := m.NumFramesDirty - 1 }
              (matStepState dt tt nm m s))).frameResources
              (nextFrameIndex (nextFrameIndex s.currFrameResourceIndex))
          = (matStepState dt tt nm { m with NumFramesDirty := m.NumFramesDirty - 1 }
              (matStepState dt tt nm m s)).frameResources
              (nextFrameIndex (nextFrameIndex s.currFrameResourceIndex)) from
          matStepState_read_other dt tt nm _ _ _ (nextFrameIndex_ne _).symm]
      exact congrArg Except.ok
        (matStepState_read_written dt tt nm
          { m with NumFramesDirty := m.NumFramesDirty - 1 } (matStepState dt tt nm m s))
    · subst hi
      exact congrArg Except.ok
        (matStepState_read_written dt tt nm
          { m with NumFramesDirty := m.NumFramesDirty - 1 - 1 }
          (matStepState dt tt nm { m with NumFramesDirty := m.NumFramesDirty - 1 }
            (matStepState dt tt nm m s)))

/-! ### Claim theorems -/

/-- C4, counterexample to the claim as stated: the index sequence used by
successive frames does not begin with slot 0. `mCurrFrameResourceIndex`
starts at 0 (line 115) and `Update` advances it *before* the slot is used
(line 243), so the first rendered frame uses slot 1, not slot 0. -/
theorem ring_first_frame_uses_slot_one :
    (ringIndexTrace 1).val = 1 ∧ (ringIndexTrace 1).val ≠ 0 := by decide

/-- C4 (amended): the ring-slot index used by frame `k` is `k % N` — the
sequence is `1,2,0,1,2,0,...`, i.e. `0,1,2` in cyclic order starting from
slot 1. The index advances by exactly `(i+1) mod N` once per frame step and
never skips or reorders a slot: the Acquiring phase selects exactly the
advanced index, and a successful frame step stores it back. -/
theorem ring_index_advances_once_per_frame_mod_N :
    (∀ i : Fin numSlots, (nextFrameIndex i).val = (i.val + 1) % numSlots) ∧
    (∀ k : Nat, (ringIndexTrace k).val = k % numSlots) ∧
    (∀ s : AppState, (acquirePhase s).1 = nextFrameIndex s.currFrameResourceIndex) ∧
    (∀ (dt tt : ℚ) (s s1 : AppState), updateStep dt tt s = .ok s1 →
      s1.currFrameResourceIndex = nextFrameIndex s.currFrameResourceIndex) :=
  ⟨nextFrameIndex_val, ringIndexTrace_val, acquirePhase_fst,
   fun dt tt s s1 h => (updateStep_ok_fields dt tt s s1 h).1⟩

/-- C5: each Draw allocates `++mCurrentFence` — the allocated fence value is
the previous one plus one, so repeated submissions produce a strictly
increasing, gap-free sequence (`drawSteps` adds exactly `n` over `n`
submissions) — and the slot submitted this frame is stamped with exactly
the value just allocated. The Update phase never touches the allocator. -/
theorem fence_values_gapless_and_stamped :
    (∀ s : AppState, ((drawStep s).1).currentFence = s.currentFence + 1) ∧
    (∀ s : AppState,
      (((drawStep s).1).frameResources s.currFrameResourceIndex).Fence
        = ((drawStep s).1).currentFence) ∧
    (∀ (n : Nat) (s : AppState), (drawSteps n s).currentFence = s.currentFence + n) ∧
    (∀ (dt tt : ℚ) (s s1 : AppState), updateStep dt tt s = .ok s1 →
      s1.currentFence = s.currentFence) := by
  refine ⟨fun s => rfl, fun s => by simp [drawStep, Function.update_same], ?_,
    fun dt tt s s1 h => (updateStep_ok_fields dt tt s s1 h).2.2.1⟩
  intro n
  induction n with
  | zero => intro s; rfl
  | succ n ih =>
    intro s
    show (drawSteps n (drawStep s).1).currentFence = s.currentFence + (n + 1)
    rw [ih ((drawStep s).1)]
    show s.currentFence + 1 + n = s.currentFence + (n + 1)
    omega

/-- C1: the Acquiring phase never hands the slot to the CPU while its
stamped fence value is unretired. If the advanced slot's stamp is nonzero,
the fence-completed value observed after the phase is at least the stamp
(the phase blocked until the fence reached it); if the stamp is zero or
already retired, the phase is a no-op (the observed value is unchanged and
no wait happens). The observed value never decreases, and a successful
frame step records exactly the phase's observed value — the slot's buffers
are only written afterwards (`updateStep` lines 256-260 of the source). -/
theorem acquire_blocks_until_stamp_retired (s : AppState) :
    ((s.frameResources (nextFrameIndex s.currFrameResourceIndex)).Fence ≠ 0 →
      (s.frameResources (nextFrameIndex s.currFrameResourceIndex)).Fence
        ≤ (acquirePhase s).2) ∧
    ((s.frameResources (nextFrameIndex s.currFrameResourceIndex)).Fence = 0 ∨
      (s.frameResources (nextFrameIndex s.currFrameResourceIndex)).Fence
        ≤ s.gpuCompleted →
      (acquirePhase s).2 = s.gpuCompleted) ∧
    s.gpuCompleted ≤ (acquirePhase s).2 ∧
    (∀ (dt tt : ℚ) (s1 : AppState), updateStep dt tt s = .ok s1 →
      s1.gpuCompleted = (acquirePhase s).2) := by
  refine ⟨?_, ?_, ?_, fun dt tt s1 h => (updateStep_ok_fields dt tt s s1 h).2.1⟩ <;>
    simp only [acquirePhase, waitUntil] <;> split
  case _ hc => intro _; exact le_max_right _ _
  case _ hc =>
    intro hne
    rcases not_and_or.mp hc with h0 | hlt
    · exact absurd hne (by simpa using h0)
    · exact le_of_not_lt (by simpa using hlt)
  case _ hc =>
    rintro (h0 | hle)
    · exact absurd hc (by simp [h0])
    · exact absurd hc (by simp; omega)
  case _ hc => intro _; rfl
  case _ hc => exact le_max_left _ _
  case _ hc => exact le_refl _

/-- C1 witness: at `sampleState` the advanced slot is stamped 5 with only 3
retired, and the phase reports at least 5; at `sampleStateRetired` the GPU
is already at 7 and the phase is a no-op. -/
theorem acquire_blocks_witness :
    (sampleState.frameResources
        (nextFrameIndex sampleState.currFrameResourceIndex)).Fence
      ≤ (acquirePhase sampleState).2 ∧
    (acquirePhase sampleStateRetired).2 = sampleStateRetired.gpuCompleted := by
  constructor
  · exact (acquire_blocks_until_stamp_retired sampleState).1 (by decide)
  · exact (acquire_blocks_until_stamp_retired sampleStateRetired).2.1
      (Or.inr (by decide))

/-- C3: the per-frame loops act on each entity's dirty counter exactly as
`objFrameStep`/`matFrameStep` (decrement when positive, skip otherwise), and
under any sequence of `markDirty` calls and frame passes a counter that
starts in `[0, N]` stays in `[0, N]`; re-marking an already-dirty entity —
even twice before any frame pass runs — resets the counter to exactly `N`,
never accumulating beyond it. -/
theorem dirty_count_bounded_and_remark_overrides :
    (∀ (items : List RenderItem) (cb : UploadBuffer ObjectConstants) res,
      UpdateObjectCBs items cb = .ok res → res.1 = List.map objFrameStep items) ∧
    (∀ (mats : List (String × Material)) (cb : UploadBuffer MaterialConstants) res,
      UpdateMaterialCBs mats cb = .ok res →
        res.1 = List.map (fun p => (p.1, matFrameStep p.2)) mats) ∧
    (∀ (ops : List EntityOp) (e : RenderItem),
      0 ≤ e.NumFramesDirty → e.NumFramesDirty ≤ gNumFrameResources →
      0 ≤ (applyRenderItemOps ops e).NumFramesDirty ∧
        (applyRenderItemOps ops e).NumFramesDirty ≤ gNumFrameResources) ∧
    (∀ (ops : List EntityOp) (m : Material),
      0 ≤ m.NumFramesDirty → m.NumFramesDirty ≤ gNumFrameResources →
      0 ≤ (applyMaterialOps ops m).NumFramesDirty ∧
        (applyMaterialOps ops m).NumFramesDirty ≤ gNumFrameResources) ∧
    (∀ e : RenderItem,
      (markDirtyRenderItem (markDirtyRenderItem e)).NumFramesDirty
        = gNumFrameResources) ∧
    (∀ m : Material,
      (markDirtyMaterial (markDirtyMaterial m)).NumFramesDirty
        = gNumFrameResources) ∧
    (∀ (dt : ℚ) (m : Material),
      (animateWaterMaterial dt m).NumFramesDirty = gNumFrameResources) :=
  ⟨UpdateObjectCBs_ok_items, UpdateMaterialCBs_ok_mats,
   applyRenderItemOps_bounds, applyMaterialOps_bounds,
   fun _ => rfl, fun _ => rfl, fun _ _ => rfl⟩

/-- C3 witness: a mark-mark-frame-frame-frame-frame history on a default
item stays inside the bounds; the characterization holds on an empty loop. -/
theorem dirty_count_bounds_witness :
    (0 ≤ (applyRenderItemOps [.mark, .mark, .frame, .frame, .frame, .frame]
        ({} : RenderItem)).NumFramesDirty ∧
      (applyRenderItemOps [.mark, .mark, .frame, .frame, .frame, .frame]
        ({} : RenderItem)).NumFramesDirty ≤ gNumFrameResources) ∧
    (markDirtyMaterial (markDirtyMaterial ({} : Material))).NumFramesDirty
      = gNumFrameResources := by
  constructor
  · exact dirty_count_bounded_and_remark_overrides.2.2.1 _ ({} : RenderItem)
      (by decide) (by decide)
  · exact dirty_count_bounded_and_remark_overrides.2.2.2.2.2.1 ({} : Material)

/-- C7: an entity whose dirty counter is zero is skipped by the update
loops: no constants are recomputed, the buffer is returned untouched (so
the region at the entity's index is unchanged), and the counter stays 0. -/
theorem clean_entities_are_skipped (e : RenderItem)
    (cb : UploadBuffer ObjectConstants) (nm : String) (m : Material)
    (mcb : UploadBuffer MaterialConstants)
    (he : e.NumFramesDirty = 0) (hm : m.NumFramesDirty = 0) :
    UpdateObjectCBs [e] cb = .ok ([e], cb) ∧
    UpdateMaterialCBs [(nm, m)] mcb = .ok ([(nm, m)], mcb) ∧
    objFrameStep e = e ∧ matFrameStep m = m :=
  ⟨UpdateObjectCBs_singleton_clean e cb (by omega),
   UpdateMaterialCBs_singleton_clean nm m mcb (by omega),
   by unfold objFrameStep; rw [if_neg (by omega)],
   by unfold matFrameStep; rw [if_neg (by omega)]⟩

/-- A render item whose propagation window has closed (counter 0). -/
def cleanItem : RenderItem := { NumFramesDirty := 0 }

/-- A material whose propagation window has closed (counter 0). -/
def cleanMat : Material := { NumFramesDirty := 0 }

/-- C7 witness: on concrete clean entities and the sample regions, the
update pass returns entities and regions untouched. -/
theorem clean_entities_are_skipped_witness :
    UpdateObjectCBs [cleanItem] (sampleSlot 0).ObjectCB
        = .ok ([cleanItem], (sampleSlot 0).ObjectCB) ∧
    UpdateMaterialCBs [("stone", cleanMat)] (sampleSlot 0).MaterialCB
        = .ok ([("stone", cleanMat)], (sampleSlot 0).MaterialCB) ∧
    objFrameStep cleanItem = cleanItem ∧ matFrameStep cleanMat = cleanMat :=
  clean_entities_are_skipped cleanItem (sampleSlot 0).ObjectCB "stone" cleanMat
    (sampleSlot 0).MaterialCB rfl rfl

/-- C6: a dirty entity whose constant index is at or past the provisioned
region size is caught at the dirty-propagation write and surfaced as a
fatal `CapacityError` naming the index and the capacity — the update loop
aborts rather than truncating or writing out of range. The slots were
provisioned once, at build time, from the then-current render-item and
material counts (`BuildFrameResources`). -/
theorem capacity_violation_is_fatal (e : RenderItem)
    (cb : UploadBuffer ObjectConstants) (nm : String) (m : Material)
    (mcb : UploadBuffer MaterialConstants)
    (hde : e.NumFramesDirty > 0) (hce : cb.elementCount ≤ e.ObjCBIndex)
    (hdm : m.NumFramesDirty > 0) (hcm : mcb.elementCount ≤ m.MatCBIndex) :
    UpdateObjectCBs [e] cb = .error ⟨e.ObjCBIndex, cb.elementCount⟩ ∧
    UpdateMaterialCBs [(nm, m)] mcb = .error ⟨m.MatCBIndex, mcb.elementCount⟩ ∧
    ∀ (oc mc : Nat) (io : ObjectConstants) (im : MaterialConstants)
      (ip : PassConstants) (i : Fin numSlots),
      (BuildFrameResources oc mc io im ip i).ObjectCB.elementCount = oc ∧
      (BuildFrameResources oc mc io im ip i).MaterialCB.elementCount = mc :=
  ⟨UpdateObjectCBs_singleton_over e cb hde hce,
   UpdateMaterialCBs_singleton_over nm m mcb hdm hcm,
   fun _ _ _ _ _ _ => ⟨rfl, rfl⟩⟩

/-- A render item whose constant index (7) exceeds a 1-element region. -/
def overItem : RenderItem := { ObjCBIndex := 7 }

/-- A material whose constant index (9) exceeds a 1-element region. -/
def overMat : Material := { MatCBIndex := 9 }

/-- C6 witness: the concrete out-of-range entities produce the fatal
configuration error naming index and capacity. -/
theorem capacity_violation_witness :
    UpdateObjectCBs [overItem] (sampleSlot 0).ObjectCB = .error ⟨7, 1⟩ ∧
    UpdateMaterialCBs [("stone2", overMat)] (sampleSlot 0).MaterialCB
      = .error ⟨9, 1⟩ := by
  have h := capacity_violation_is_fatal overItem (sampleSlot 0).ObjectCB "stone2"
    overMat (sampleSlot 0).MaterialCB (by decide) (by decide) (by decide) (by decide)
  exact ⟨h.1, h.2.1⟩

/-- C2: after a single `markDirty` on an entity followed by exactly `N = 3`
frames with no further mutation of that entity (for a material this means
it is not the `"water"` entry that `AnimateMaterials` re-marks each frame),
the entity's dirty counter is 0 and each of the three distinct ring slots —
frame `k` writes the slot acquired at frame `k`, and three advances visit
all three slots — has received the entity's recomputed constant data. -/
theorem marked_entity_propagates_to_all_slots :
    (∀ (dt tt : ℚ) (e : RenderItem) (s : AppState),
      s.allRitems = [markDirtyRenderItem e] → s.materials = [] →
      (∀ i : Fin numSlots,
        e.ObjCBIndex < (s.frameResources i).ObjectCB.elementCount) →
      (∀ i : Fin numSlots, 0 < (s.frameResources i).PassCB.elementCount) →
      Except.map (fun t => t.allRitems) (updateFrames dt tt 3 s)
          = .ok [{ markDirtyRenderItem e with NumFramesDirty := 0 }] ∧
      ∀ i : Fin numSlots,
        Except.map (fun t => (t.frameResources i).ObjectCB.data e.ObjCBIndex)
            (updateFrames dt tt 3 s) = .ok (objectConstantsOf e)) ∧
    (∀ (dt tt : ℚ) (nm : String) (m : Material) (s : AppState),
      s.allRitems = [] → s.materials = [(nm, markDirtyMaterial m)] →
      ¬ nm = "water" →
      (∀ i : Fin numSlots,
        m.MatCBIndex < (s.frameResources i).MaterialCB.elementCount) →
      (∀ i : Fin numSlots, 0 < (s.frameResources i).PassCB.elementCount) →
      Except.map (fun t => t.materials) (updateFrames dt tt 3 s)
          = .ok [(nm, { markDirtyMaterial m with NumFramesDirty := 0 })] ∧
      ∀ i : Fin numSlots,
        Except.map (fun t => (t.frameResources i).MaterialCB.data m.MatCBIndex)
            (updateFrames dt tt 3 s) = .ok (materialConstantsOf m)) := by
  constructor
  · intro dt tt e s hA hM hcap hp
    exact objectPropagationThreeFrames dt tt (markDirtyRenderItem e) s hA hM rfl
      (fun i => hcap i) hp
  · intro dt tt nm m s hA hM hw hcap hp
    exact materialPropagationThreeFrames dt tt nm (markDirtyMaterial m) s hA hM hw rfl
      (fun i => hcap i) hp

/-- A concrete marked render item for the propagation witness. -/
def c2Item : RenderItem := { ObjCBIndex := 0 }

/-- A concrete marked material for the propagation witness. -/
def c2Mat : Material := { MatCBIndex := 0 }

/-- The sample scene holding only the marked render item. -/
def c2ObjState : AppState :=
  { sampleState with allRitems := [markDirtyRenderItem c2Item] }

/-- The sample scene holding only the marked material. -/
def c2MatState : AppState :=
  { sampleState with materials := [("stone", markDirtyMaterial c2Mat)] }

/-- C2 witness: both concrete marked scenes run three frames successfully
and end with the entity clean. -/
theorem marked_entity_propagates_witness :
    Except.map (fun t => t.allRitems) (updateFrames 0 0 3 c2ObjState)
        = .ok [{ markDirtyRenderItem c2Item with NumFramesDirty := 0 }] ∧
    Except.map (fun t => t.materials) (updateFrames 0 0 3 c2MatState)
        = .ok [("stone", { markDirtyMaterial c2Mat with NumFramesDirty := 0 })] := by
  constructor
  · exact (marked_entity_propagates_to_all_slots.1 0 0 c2Item c2ObjState rfl rfl
      (by decide) (by decide)).1
  · exact (marked_entity_propagates_to_all_slots.2 0 0 "stone" c2Mat c2MatState rfl rfl
      (by decide) (by decide) (by decide)).1

/-- C10: a freshly constructed `RenderItem` already has
`NumFramesDirty = gNumFrameResources = 3` (the member initializer, line 38),
so any render item entering the scene at build time propagates its initial
constants to all `N` slots over the first `N` frames with no explicit
`markDirty` call after construction. -/
theorem default_render_item_starts_fully_dirty :
    ({} : RenderItem).NumFramesDirty = gNumFrameResources ∧
    gNumFrameResources = 3 ∧
    (∀ (dt tt : ℚ) (e : RenderItem) (s : AppState),
      e.NumFramesDirty = gNumFrameResources →
      s.allRitems = [e] → s.materials = [] →
      (∀ i : Fin numSlots,
        e.ObjCBIndex < (s.frameResources i).ObjectCB.elementCount) →
      (∀ i : Fin numSlots, 0 < (s.frameResources i).PassCB.elementCount) →
      Except.map (fun t => t.allRitems) (updateFrames dt tt 3 s)
          = .ok [{ e with NumFramesDirty := 0 }] ∧
      ∀ i : Fin numSlots,
        Except.map (fun t => (t.frameResources i).ObjectCB.data e.ObjCBIndex)
            (updateFrames dt tt 3 s) = .ok (objectConstantsOf e)) :=
  ⟨rfl, rfl, fun dt tt e s hd hA hM hcap hp =>
    objectPropagationThreeFrames dt tt e s hA hM hd hcap hp⟩

/-- The sample scene holding one default-constructed item (no `markDirty`
ever called), with its constant index set as scene construction does. -/
def c10State : AppState :=
  { sampleState with allRitems := [{ ObjCBIndex := 0 }] }

/-- C10 witness: the default-constructed item propagates over the first
three frames without any mark. -/
theorem default_render_item_witness :
    Except.map (fun t => t.allRitems) (updateFrames 0 0 3 c10State)
        = .ok [{ ({ ObjCBIndex := 0 } : RenderItem) with NumFramesDirty := 0 }] :=
  (default_render_item_starts_fully_dirty.2.2 0 0 { ObjCBIndex := 0 } c10State rfl
    rfl rfl (by decide) (by decide)).1

/-- The pipeline-state order `Draw` records in (Castle.cpp lines 297-306):
opaque, then alpha-tested, then tree-sprite billboards, then transparent. -/
def layerRank : RenderLayer → Nat
  | .Opaque => 0
  | .AlphaTested => 1
  | .AlphaTestedTreeSprites => 2
  | .Transparent => 3

/-- Two recorded commands are in pipeline order when, if both carry a
bucket tag, the first's bucket is ranked no later than the second's. -/
def recordedInOrder (a b : Option RenderLayer × Cmd) : Prop :=
  ∀ la lb, a.1 = some la → b.1 = some lb → layerRank la ≤ layerRank lb

/-- The untagged projection of the commands recorded from bucket `l`. -/
def taggedFrom (l : RenderLayer) (cs : List (Option RenderLayer × Cmd)) : List Cmd :=
  (cs.filter fun c => decide (c.1 = some l)).map Prod.snd

theorem taggedFrom_append (l : RenderLayer) (a b : List (Option RenderLayer × Cmd)) :
    taggedFrom l (a ++ b) = taggedFrom l a ++ taggedFrom l b := by
  simp [taggedFrom, List.filter_append]

theorem taggedFrom_untagged (l : RenderLayer) (cs : List Cmd) :
    taggedFrom l (untagged cs) = [] := by
  unfold taggedFrom
  rw [List.filter_eq_nil_iff.mpr, List.map_nil]
  intro c hc
  simp only [untagged, List.mem_map] at hc
  obtain ⟨a, _, rfl⟩ := hc
  simp

theorem taggedFrom_tagCmds (l l' : RenderLayer) (cs : List Cmd) :
    taggedFrom l (tagCmds l' cs) = if l' = l then cs else [] := by
  unfold taggedFrom tagCmds
  rcases eq_or_ne l' l with h | h
  · subst h
    rw [if_pos rfl, List.filter_eq_self.mpr, List.map_map]
    · simp
    · intro c hc
      simp only [List.mem_map] at hc
      obtain ⟨a, _, rfl⟩ := hc
      simp
  · rw [if_neg h, List.filter_eq_nil_iff.mpr, List.map_nil]
    intro c hc
    simp only [List.mem_map] at hc
    obtain ⟨a, _, rfl⟩ := hc
    simp [h]

theorem mem_tagCmds_fst {c : Option RenderLayer × Cmd} {l : RenderLayer}
    {cs : List Cmd} (h : c ∈ tagCmds l cs) : c.1 = some l := by
  simp only [tagCmds, List.mem_map] at h
  obtain ⟨a, _, rfl⟩ := h
  rfl

theorem mem_untagged_fst {c : Option RenderLayer × Cmd} {cs : List Cmd}
    (h : c ∈ untagged cs) : c.1 = none := by
  simp only [untagged, List.mem_map] at h
  obtain ⟨a, _, rfl⟩ := h
  rfl

theorem pairwise_recordedInOrder_untagged (cs : List Cmd) :
    List.Pairwise recordedInOrder (untagged cs) := by
  induction cs with
  | nil => exact .nil
  | cons c cs ih =>
    exact .cons (fun b _ la lb ha _ => absurd ha (by simp)) ih

theorem pairwise_recordedInOrder_tagCmds (l : RenderLayer) (cs : List Cmd) :
    List.Pairwise recordedInOrder (tagCmds l cs) := by
  induction cs with
  | nil => exact .nil
  | cons c cs ih =>
    refine List.Pairwise.cons ?_ ih
    intro b hb la lb ha hb'
    have h1 : l = la := by simpa using ha
    have h2 : lb = l := by
      have hf := mem_tagCmds_fst hb
      rw [hf] at hb'
      simpa using hb'.symm
    rw [← h1, h2]

theorem pairwise_recordedInOrder_split (r : Nat)
    (l1 l2 : List (Option RenderLayer × Cmd))
    (h1 : List.Pairwise recordedInOrder l1) (h2 : List.Pairwise recordedInOrder l2)
    (hle : ∀ c ∈ l1, ∀ la, c.1 = some la → layerRank la ≤ r)
    (hge : ∀ c ∈ l2, ∀ lb, c.1 = some lb → r ≤ layerRank lb) :
    List.Pairwise recordedInOrder (l1 ++ l2) := by
  rw [List.pairwise_append]
  exact ⟨h1, h2, fun a ha b hb la lb hla hlb =>
    le_trans (hle a ha la hla) (hge b hb lb hlb)⟩

theorem all_mem_append {α : Type} {P : α → Prop} {l1 l2 : List α}
    (h1 : ∀ c ∈ l1, P c) (h2 : ∀ c ∈ l2, P c) : ∀ c ∈ l1 ++ l2, P c := by
  intro c hc
  rcases List.mem_append.mp hc with h | h
  exacts [h1 c h, h2 c h]

theorem layerRank_le_three : ∀ l : RenderLayer, layerRank l ≤ 3 := by
  intro l
  cases l <;> decide

theorem rank_le_untagged (r : Nat) (cs : List Cmd) :
    ∀ c ∈ untagged cs, ∀ la, c.1 = some la → layerRank la ≤ r := by
  intro c hc la ha
  rw [mem_untagged_fst hc] at ha
  exact absurd ha (by simp)

theorem rank_ge_untagged (r : Nat) (cs : List Cmd) :
    ∀ c ∈ untagged cs, ∀ lb, c.1 = some lb → r ≤ layerRank lb := by
  intro c hc lb hb
  rw [mem_untagged_fst hc] at hb
  exact absurd hb (by simp)

theorem rank_le_tagCmds (r : Nat) (l : RenderLayer) (cs : List Cmd)
    (h : layerRank l ≤ r) :
    ∀ c ∈ tagCmds l cs, ∀ la, c.1 = some la → layerRank la ≤ r := by
  intro c hc la ha
  rw [mem_tagCmds_fst hc] at ha
  rwa [← Option.some_inj.mp ha]

theorem rank_ge_tagCmds (r : Nat) (l : RenderLayer) (cs : List Cmd)
    (h : r ≤ layerRank l) :
    ∀ c ∈ tagCmds l cs, ∀ lb, c.1 = some lb → r ≤ layerRank lb := by
  intro c hc lb hb
  rw [mem_tagCmds_fst hc] at hb
  rwa [← Option.some_inj.mp hb]

/-- C8: in every frame's recording, the draw stream is grouped by pipeline
state in exactly the source order — the commands recorded from bucket `l`
are precisely `DrawRenderItems` over that bucket, and any two recorded
commands with bucket provenance appear in rank order
opaque ≤ alpha-tested ≤ tree-sprites ≤ transparent. In particular no
transparent draw precedes any opaque or alpha-tested draw. -/
theorem draws_grouped_by_pipeline_in_order (layer : RenderLayer → List RenderItem) :
    List.Pairwise recordedInOrder (recordDrawCommands layer) ∧
    ∀ l : RenderLayer, taggedFrom l (recordDrawCommands layer)
      = DrawRenderItems (layer l) := by
  constructor
  · unfold recordDrawCommands
    refine pairwise_recordedInOrder_split 3 _ _ ?_
      (pairwise_recordedInOrder_untagged _) ?_ (rank_ge_untagged 3 _)
    swap
    · exact fun c hc la ha => layerRank_le_three la
    refine pairwise_recordedInOrder_split 3 _ _ ?_
      (pairwise_recordedInOrder_tagCmds _ _) ?_
      (rank_ge_tagCmds 3 RenderLayer.Transparent _ (by decide))
    swap
    · exact fun c hc la ha => layerRank_le_three la
    refine pairwise_recordedInOrder_split 2 _ _ ?_
      (pairwise_recordedInOrder_untagged _) ?_ (rank_ge_untagged 2 _)
    swap
    · refine all_mem_append (all_mem_append (all_mem_append (all_mem_append
        (all_mem_append (rank_le_untagged 2 _)
          (rank_le_tagCmds 2 RenderLayer.Opaque _ (by decide)))
        (rank_le_untagged 2 _))
        (rank_le_tagCmds 2 RenderLayer.AlphaTested _ (by decide)))
        (rank_le_untagged 2 _))
        (rank_le_tagCmds 2 RenderLayer.AlphaTestedTreeSprites _ (by decide))
    refine pairwise_recordedInOrder_split 2 _ _ ?_
      (pairwise_recordedInOrder_tagCmds _ _) ?_
      (rank_ge_tagCmds 2 RenderLayer.AlphaTestedTreeSprites _ (by decide))
    swap
    · refine all_mem_append (all_mem_append (all_mem_append (all_mem_append
        (rank_le_untagged 2 _)
          (rank_le_tagCmds 2 RenderLayer.Opaque _ (by decide)))
        (rank_le_untagged 2 _))
        (rank_le_tagCmds 2 RenderLayer.AlphaTested _ (by decide)))
        (rank_le_untagged 2 _)
    refine pairwise_recordedInOrder_split 1 _ _ ?_
      (pairwise_recordedInOrder_untagged _) ?_ (rank_ge_untagged 1 _)
    swap
    · refine all_mem_append (all_mem_append (all_mem_append
        (rank_le_untagged 1 _)
          (rank_le_tagCmds 1 RenderLayer.Opaque _ (by decide)))
        (rank_le_untagged 1 _))
        (rank_le_tagCmds 1 RenderLayer.AlphaTested _ (by decide))
    refine pairwise_recordedInOrder_split 1 _ _ ?_
      (pairwise_recordedInOrder_tagCmds _ _) ?_
      (rank_ge_tagCmds 1 RenderLayer.AlphaTested _ (by decide))
    swap
    · refine all_mem_append (all_mem_append
        (rank_le_untagged 1 _)
          (rank_le_tagCmds 1 RenderLayer.Opaque _ (by decide)))
        (rank_le_untagged 1 _)
    refine pairwise_recordedInOrder_split 0 _ _ ?_
      (pairwise_recordedInOrder_untagged _) ?_ (rank_ge_untagged 0 _)
    swap
    · exact all_mem_append (rank_le_untagged 0 _)
        (rank_le_tagCmds 0 RenderLayer.Opaque _ (by decide))
    exact pairwise_recordedInOrder_split 0 _ _
      (pairwise_recordedInOrder_untagged _)
      (pairwise_recordedInOrder_tagCmds _ _)
      (rank_le_untagged 0 _)
      (rank_ge_tagCmds 0 RenderLayer.Opaque _ (by decide))
  · intro l
    cases l <;>
      simp [recordDrawCommands, taggedFrom_append, taggedFrom_untagged,
        taggedFrom_tagCmds]

/-- C9: every successful frame step rebuilds the pass-global constant block
from the current camera/window/timer state and writes it at element 0 of
the acquired slot's pass region. There is no dirty check anywhere in this
path: the equation holds for every state, including a state whose camera
and pass inputs are identical to the previous frame's. -/
theorem pass_block_rewritten_every_frame (dt tt : ℚ) (s s1 : AppState)
    (h : updateStep dt tt s = .ok s1) :
    (s1.frameResources (nextFrameIndex s.currFrameResourceIndex)).PassCB =
      { (s.frameResources (nextFrameIndex s.currFrameResourceIndex)).PassCB with
        data := Function.update
          (s.frameResources (nextFrameIndex s.currFrameResourceIndex)).PassCB.data 0
          (computeMainPassCB s.view s.proj s.eyePos s.clientWidth s.clientHeight
            tt dt s.mainPassCB) } ∧
    s1.mainPassCB = computeMainPassCB s.view s.proj s.eyePos s.clientWidth
      s.clientHeight tt dt s.mainPassCB :=
  ⟨(updateStep_ok_fields dt tt s s1 h).2.2.2.2,
   (updateStep_ok_fields dt tt s s1 h).2.2.2.1⟩

/-- The state the sample scene reaches after one frame step (the step
succeeds; this definition extracts its result). -/
def sampleStateAfter : AppState :=
  ((updateStep 0 0 sampleState).toOption).getD sampleState

/-- C9 witness: running one frame on the concrete sample scene — whose
camera, window and timer inputs are unchanged (`dt = 0`) — still rewrites
the pass block of the acquired slot. -/
theorem pass_block_rewritten_witness :
    (sampleStateAfter.frameResources
        (nextFrameIndex sampleState.currFrameResourceIndex)).PassCB =
      { (sampleState.frameResources
          (nextFrameIndex sampleState.currFrameResourceIndex)).PassCB with
        data := Function.update
          (sampleState.frameResources
            (nextFrameIndex sampleState.currFrameResourceIndex)).PassCB.data 0
          (computeMainPassCB sampleState.view sampleState.proj sampleState.eyePos
            sampleState.clientWidth sampleState.clientHeight 0 0
            sampleState.mainPassCB) } :=
  (pass_block_rewritten_every_frame 0 0 sampleState sampleStateAfter (by rfl)).1

end Castle
